import Mathlib

/-!
Verification of `deepspeed/model_implementations/transformers/ds_transformer.py`
(class `DeepSpeedTransformerInference`).

The Python layer is a thin orchestrator around opaque kernel capabilities
(attention, MLP, layer-norm, workspace allocation).  We embed it shallowly:

* tensors are records carrying a dtype, a shape and an opaque data tag
  (the numerical contents are irrelevant to every claim);
* the opaque kernel capabilities are a record of arbitrary Lean functions
  (`Kernels`), quantified over in the theorems;
* process-global state (the class-level `layer_id` counter, the lazily
  loaded cuda module, the workspace-allocation invocations, the
  distributed-communication rank) lives in `GlobalState`;
* a layer instance is a `Layer` record; `forward` threads
  `GlobalState × Layer` explicitly and returns `Except PyErr`, since Python
  attribute/index accesses on bad inputs raise.

A `Trace` record is returned alongside the result; its fields are bound to
the very values the source computes (the resolved mask, the resolved cache
actually handed to the attention capability, the `(key, value)` pair, the
MLP output, ...) so that theorems can speak about intermediate behaviour
without re-stating the body of `forward`.
-/

/-- Tensor data types that this file distinguishes (`torch.float` vs
`torch.half`).  Quantized int8 is a config flag, not an input dtype here. -/
inductive DType where
  | float
  | half
deriving DecidableEq, Repr

/-- A tensor: dtype, shape, and an opaque tag standing for the contents. -/
structure Tensor where
  dtype : DType
  shape : List Nat
  data : Nat
deriving DecidableEq, Repr

/-- `t.half()` : cast to half precision. -/
def Tensor.half (t : Tensor) : Tensor :=
  { t with dtype := DType.half }

/-- `t.to(dt)` : cast to the given dtype. -/
def Tensor.to (t : Tensor) (dt : DType) : Tensor :=
  { t with dtype := dt }

/-- Python exceptions that the orchestration code itself can raise:
attribute access on a tuple (`.size()` / `.shape`), or indexing a shape
that is too short. -/
inductive PyErr where
  | attributeError
  | indexError
deriving DecidableEq, Repr

/-- The `input` argument of `forward`: either a tensor, or a
`(tensor, attention-mask)` tuple (the shape the unpacking branch at the
`isinstance(input, tuple)` check expects). -/
inductive PyInput where
  | tens (t : Tensor)
  | tup (t : Tensor) (m : Tensor)
deriving DecidableEq, Repr

/-- `input.size()` — a tensor returns its shape, a tuple has no `size`
attribute and raises `AttributeError`. -/
def PyInput.sizeList : PyInput → Except PyErr (List Nat)
  | .tens t => .ok t.shape
  | .tup _ _ => .error .attributeError

/-- `input.shape` — a tensor returns its shape, a tuple has no `shape`
attribute and raises `AttributeError`. -/
def PyInput.shapeList : PyInput → Except PyErr (List Nat)
  | .tens t => .ok t.shape
  | .tup _ _ => .error .attributeError

/-- `xs[i]` on a Python sequence: `IndexError` when out of range. -/
def pyIndex (xs : List Nat) (i : Nat) : Except PyErr Nat :=
  match xs[i]? with
  | some v => .ok v
  | none => .error .indexError

/-- The fields of `DeepSpeedInferenceConfig` that `ds_transformer.py`
reads or writes.  `epsilon` (a Python float threaded opaquely to the
layer-norm kernel) is modelled as a rational. -/
structure Config where
  layer_id : Nat
  hidden_size : Nat
  heads : Nat
  mp_size : Nat
  fp16 : Bool
  q_int8 : Bool
  pre_layer_norm : Bool
  return_tuple : Bool
  epsilon : ℚ
  bigscience_bloom : Bool
  max_out_tokens : Nat
deriving DecidableEq, Repr

/-- One invocation of the workspace-allocation capability, with the
arguments the source passes at lines 106-114. -/
structure AllocCall where
  kind : DType
  hidden_size : Nat
  batch : Nat
  seq : Nat
  class_layer_id : Nat
  heads : Nat
  mp_size : Nat
  bloom : Bool
  rank : Nat
  max_out_tokens : Nat
deriving DecidableEq, Repr

/-- Process-global state: the class attribute
`DeepSpeedTransformerInference.layer_id`, the lazily loaded
`inference_cuda_module`, the distributed-communication collaborator
(`dist.is_initialized()` / `dist.get_rank()`), and the list of
workspace-allocation invocations performed so far. -/
structure GlobalState where
  layer_id : Nat
  module_loaded : Bool
  dist_ready : Bool
  rank : Nat
  allocs : List AllocCall
deriving DecidableEq, Repr

/-- One `DeepSpeedTransformerInference` instance.  `attn_ob` stands for
`self.attention.attn_ob`, the attention sub-module's output-projection
bias (the sub-module itself is outside this file). `allocate_kind`
records which of `allocate_workspace_fp32`/`_fp16` was bound at
construction. -/
structure Layer where
  config : Config
  norm_w : Tensor
  norm_b : Tensor
  attn_ob : Tensor
  layer_past : Option (Tensor × Tensor)
  allocate_kind : DType
deriving DecidableEq, Repr

/-- The opaque kernel capabilities, as arbitrary functions:
`attention` mirrors `self.attention(input, input_mask, head_mask,
layer_past, get_present, encoder_hidden_states, encoder_attention_mask,
output_attentions, norm_w, norm_b, alibi)` and returns
`(attention_output, key, value, context_outputtn_ctx, inp_norm)`;
`mlp` mirrors `self.mlp(attention_output, input, inp_norm, attn_ob)`;
`layer_norm` mirrors `inference_cuda_module.layer_norm_fp16/fp32
(output, norm_w, norm_b, epsilon)` with the precision selected by the
first argument. -/
structure Kernels where
  attention : Tensor → Option Tensor → Option Tensor → Option (Tensor × Tensor) → Bool →
      Option Tensor → Option Tensor → Bool → Tensor → Tensor → Option Tensor →
      Tensor × Tensor × Tensor × Tensor × Tensor
  mlp : Tensor → Tensor → Tensor → Tensor → Tensor
  layer_norm : DType → Tensor → Tensor → Tensor → ℚ → Tensor

/-- Which layer-norm kernel the source picks at lines 154-155. -/
def lnKind (c : Config) : DType :=
  if c.fp16 || c.q_int8 then DType.half else DType.float

/-- The keyword arguments of `forward` (every parameter of the Python
signature; `encoder_output` and `enc_dec_attn_mask` are accepted but
never read by the body, exactly as in the source). -/
structure ForwardArgs where
  input : PyInput
  input_mask : Option Tensor
  attention_mask : Option Tensor
  head_mask : Option Tensor
  layer_past : Option (Tensor × Tensor)
  get_key_value : Bool
  get_present : Bool
  encoder_output : Option Tensor
  enc_dec_attn_mask : Option Tensor
  encoder_hidden_states : Option Tensor
  encoder_attention_mask : Option Tensor
  use_cache : Bool
  alibi : Option Tensor
  output_attentions : Bool
  layer_head_mask : Option Tensor
  past_key_value : Option (Tensor × Tensor)
deriving DecidableEq, Repr

/-- The value `forward` returns: the bare output tensor, the
`(output, presents)` pair when cache retrieval was requested, or the
`(output, attn_mask)` pair produced by the `return_tuple` wrapping. -/
inductive Ret where
  | bare (t : Tensor)
  | withPresents (t : Tensor) (p : Tensor × Tensor)
  | withMask (t : Tensor) (m : Option Tensor)
deriving DecidableEq, Repr

/-- The output tensor inside a `Ret`. -/
def Ret.outTensor : Ret → Tensor
  | .bare t => t
  | .withPresents t _ => t
  | .withMask t _ => t

/-- How many components the returned Python value has: `none` when it is
a bare tensor, `some n` when it is an `n`-tuple. -/
def Ret.tupleLen : Ret → Option Nat
  | .bare _ => none
  | .withPresents _ _ => some 2
  | .withMask _ _ => some 2

/-- Observational record of one `forward` call.  Every field is bound to
the corresponding local of the source: `maskUsed` is the resolved
`input_mask` (line 117), `headMaskUsed` the resolved `head_mask`
(line 123), `cacheUsed` the resolved `layer_past` handed to the attention
capability (line 122), `presents` the `(key, value)` pair (line 149),
`castInput`/`inputType` the input after/before the precision cast
(lines 129-133), `inpNorm`/`attnOut` outputs of the attention call,
`mlpOut` the MLP output (line 151), `out` the final tensor after the
cast back (line 161), `normApplied` whether the post-block layer-norm
branch ran, `unpacked` whether the tuple-unpacking branch ran, and
`allocCount` how many workspace allocations this call performed. -/
structure Trace where
  maskUsed : Option Tensor
  headMaskUsed : Option Tensor
  cacheUsed : Option (Tensor × Tensor)
  presents : Tensor × Tensor
  inputType : DType
  castInput : Tensor
  attnOut : Tensor
  inpNorm : Tensor
  mlpOut : Tensor
  out : Tensor
  normApplied : Bool
  unpacked : Bool
  allocCount : Nat
deriving DecidableEq, Repr

/-- `__init__` (lines 35-82): stores the config, overwrites its
`layer_id` field with the class counter, bumps the counter, lazily loads
the kernel module, allocates the two normalization parameter tensors
(`torch.empty(hidden_size, dtype=data_type)` — contents uninitialized,
tags arbitrary), initializes `layer_past = None`, and binds the
fp32/fp16 workspace allocator by `config.fp16`.  (The `log_dist` call at
`layer_id == 1` and the device placement have no modelled effect.) -/
def construct (g : GlobalState) (c : Config) : GlobalState × Layer :=
  let c' := { c with layer_id := g.layer_id }
  let g' := { g with layer_id := g.layer_id + 1, module_loaded := true }
  let data_type := if c.fp16 then DType.half else DType.float
  let l : Layer :=
    { config := c'
      norm_w := { dtype := data_type, shape := [c.hidden_size], data := 0 }
      norm_b := { dtype := data_type, shape := [c.hidden_size], data := 1 }
      attn_ob := { dtype := data_type, shape := [c.hidden_size], data := 2 }
      layer_past := none
      allocate_kind := if c.fp16 then DType.half else DType.float }
  (g', l)

/-- The argument record the source passes to `self.allocate_workspace`
at lines 106-114: hidden size, `input.size()[0]`, `input.size()[1]`, the
class-level counter, head count, model-parallel size, the bloom flag,
the process rank (`dist.get_rank() if dist.is_initialized() else 0`) and
the maximum output tokens. -/
def mkAllocCall (g : GlobalState) (l : Layer) (b s : Nat) : AllocCall :=
  { kind := l.allocate_kind
    hidden_size := l.config.hidden_size
    batch := b
    seq := s
    class_layer_id := g.layer_id
    heads := l.config.heads
    mp_size := l.config.mp_size
    bloom := l.config.bigscience_bloom
    rank := if g.dist_ready then g.rank else 0
    max_out_tokens := l.config.max_out_tokens }

/-- Lines 104-114: `if self.config.layer_id == 0: self.allocate_workspace(...)`.
Returns the updated global state and how many allocations were performed. -/
def allocStep (g : GlobalState) (l : Layer) (input : PyInput) :
    Except PyErr (GlobalState × Nat) :=
  if l.config.layer_id = 0 then do
    let sz ← input.sizeList
    let b ← pyIndex sz 0
    let s ← pyIndex sz 1
    .ok ({ g with allocs := g.allocs ++ [mkAllocCall g l b s] }, 1)
  else
    .ok (g, 0)

/-- `forward` (lines 84-168), translated statement by statement.  Returns
the updated global state, the updated layer, the returned value and the
observational trace. -/
def forward (k : Kernels) (g : GlobalState) (l : Layer) (a : ForwardArgs) :
    Except PyErr (GlobalState × Layer × Ret × Trace) := do
  -- lines 104-114: allocate memory only on first layer forward
  let (g, nalloc) ← allocStep g l a.input
  -- line 116
  let get_present := a.get_present || a.get_key_value || a.use_cache
  -- line 117
  let input_mask := match a.attention_mask with
    | none => a.input_mask
    | some m => some m
  -- lines 119-121: reset the stored cache when there is a prompt
  let shp ← a.input.shapeList
  let s1 ← pyIndex shp 1
  let l := if s1 > 1 then { l with layer_past := none } else l
  -- line 122
  let layer_past := match a.layer_past with
    | some p => some p
    | none => l.layer_past
  -- line 123
  let head_mask := match a.layer_head_mask with
    | some m => some m
    | none => a.head_mask
  -- lines 125-128: attn_mask = None; unpack a tuple input
  let unpackTriple : Option Tensor × Tensor × Bool :=
    match a.input with
    | .tup t m => (some m, t, true)
    | .tens t => (none, t, false)
  let attn_mask := unpackTriple.1
  let inp0 := unpackTriple.2.1
  let unpacked := unpackTriple.2.2
  -- line 129
  let input_type := inp0.dtype
  -- lines 131-133
  let inp := if (l.config.fp16 || l.config.q_int8) && inp0.dtype == DType.float
    then inp0.half else inp0
  -- lines 136-147
  let attnRes := k.attention inp input_mask head_mask layer_past get_present
      a.encoder_hidden_states a.encoder_attention_mask a.output_attentions
      l.norm_w l.norm_b a.alibi
  let attention_output := attnRes.1
  let key := attnRes.2.1
  let value := attnRes.2.2.1
  let inp_norm := attnRes.2.2.2.2
  -- line 149
  let presents := (key, value)
  -- line 150
  let l := { l with layer_past := if layer_past.isNone then some presents else none }
  -- line 151
  let mlpOut := k.mlp attention_output inp inp_norm l.attn_ob
  -- lines 153-159
  let output := if !l.config.pre_layer_norm
    then k.layer_norm (lnKind l.config) mlpOut l.norm_w l.norm_b l.config.epsilon
    else mlpOut
  -- line 161
  let output := output.to input_type
  -- lines 162-168
  let ret : Ret :=
    if get_present then .withPresents output presents
    else if l.config.return_tuple then .withMask output attn_mask
    else .bare output
  let tr : Trace :=
    { maskUsed := input_mask
      headMaskUsed := head_mask
      cacheUsed := layer_past
      presents := presents
      inputType := input_type
      castInput := inp
      attnOut := attention_output
      inpNorm := inp_norm
      mlpOut := mlpOut
      out := output
      normApplied := !l.config.pre_layer_norm
      unpacked := unpacked
      allocCount := nalloc }
  pure (g, l, ret, tr)

/-! ### Extractors over the result of `forward` -/

/-- The global state after a successful call; `none` on error. -/
def fwdGlobal? : Except PyErr (GlobalState × Layer × Ret × Trace) → Option GlobalState
  | .ok (g, _, _, _) => some g
  | .error _ => none

/-- The layer state after a successful call; `none` on error. -/
def fwdLayer? : Except PyErr (GlobalState × Layer × Ret × Trace) → Option Layer
  | .ok (_, l, _, _) => some l
  | .error _ => none

/-- The returned value of a successful call; `none` on error. -/
def fwdRet? : Except PyErr (GlobalState × Layer × Ret × Trace) → Option Ret
  | .ok (_, _, r, _) => some r
  | .error _ => none

/-- The trace of a successful call; `none` on error. -/
def fwdTrace? : Except PyErr (GlobalState × Layer × Ret × Trace) → Option Trace
  | .ok (_, _, _, tr) => some tr
  | .error _ => none

/-- Whether a call succeeded. -/
def fwdOk : Except PyErr (GlobalState × Layer × Ret × Trace) → Bool
  | .ok _ => true
  | .error _ => false

/-- Chain a second `forward` call on the state a first call produced
(same layer object, updated global and layer state). -/
def thenForward (k : Kernels) (r : Except PyErr (GlobalState × Layer × Ret × Trace))
    (a : ForwardArgs) : Except PyErr (GlobalState × Layer × Ret × Trace) :=
  match r with
  | .ok (g, l, _, _) => forward k g l a
  | .error e => .error e

/-! ### Multi-step execution: a sequence of constructions and forward calls -/

/-- One caller-side operation: construct a new layer, or call `forward`
on the `i`-th constructed layer. -/
inductive Op where
  | construct (c : Config)
  | fwd (i : Nat) (a : ForwardArgs)

/-- Execute one operation against the global state and the list of layers
constructed so far (new layers are appended in construction order). -/
def runStep (k : Kernels) (g : GlobalState) (ls : List Layer) :
    Op → Except PyErr (GlobalState × List Layer)
  | .construct c =>
      let gl := construct g c
      .ok (gl.1, ls ++ [gl.2])
  | .fwd i a =>
      match ls.get? i with
      | none => .error .indexError
      | some l =>
          match forward k g l a with
          | .ok (g', l', _, _) => .ok (g', ls.set i l')
          | .error e => .error e

/-- Execute a sequence of operations, stopping at the first error. -/
def run (k : Kernels) (g : GlobalState) (ls : List Layer) :
    List Op → Except PyErr (GlobalState × List Layer)
  | [] => .ok (g, ls)
  | op :: ops =>
      match runStep k g ls op with
      | .ok (g', ls') => run k g' ls' ops
      | .error e => .error e

/-- How many workspace allocations one operation performs: none for a
construction, and, for a forward call, one exactly when the target
layer's `config.layer_id` is `0`. -/
def opAllocDelta (ls : List Layer) : Op → Nat
  | .construct _ => 0
  | .fwd i _ =>
      match ls.get? i with
      | some l => if l.config.layer_id = 0 then 1 else 0
      | none => 0

/-- The global state after a successful run; `none` on error. -/
def runGlobal? : Except PyErr (GlobalState × List Layer) → Option GlobalState
  | .ok (g, _) => some g
  | .error _ => none

/-- The layer list after a successful run; `none` on error. -/
def runLayers? : Except PyErr (GlobalState × List Layer) → Option (List Layer)
  | .ok (_, ls) => some ls
  | .error _ => none

/-! ### Concrete instances used by counterexamples and witnesses -/

/-- A concrete kernel capability set for evaluation: attention hands the
(cast) input back in all five result slots, MLP returns its first
argument, layer-norm returns its input tensor. -/
def K0 : Kernels :=
  { attention := fun inp _ _ _ _ _ _ _ _ _ _ => (inp, inp, inp, inp, inp)
    mlp := fun a _ _ _ => a
    layer_norm := fun _ t _ _ _ => t }

/-- A fresh process: class counter at `0`, module not yet loaded, no
allocations, distributed backend not initialized. -/
def freshG : GlobalState :=
  { layer_id := 0, module_loaded := false, dist_ready := false, rank := 0, allocs := [] }

/-- A concrete configuration (fp32, pre-layer-norm, no tuple return). -/
def cfg0 : Config :=
  { layer_id := 0, hidden_size := 4, heads := 2, mp_size := 1, fp16 := false,
    q_int8 := false, pre_layer_norm := true, return_tuple := false,
    epsilon := 1 / 1000000, bigscience_bloom := false, max_out_tokens := 128 }

/-- `forward` arguments with only the input set (all other parameters at
their Python defaults). -/
def argsFor (i : PyInput) : ForwardArgs :=
  { input := i, input_mask := none, attention_mask := none, head_mask := none,
    layer_past := none, get_key_value := false, get_present := false,
    encoder_output := none, enc_dec_attn_mask := none,
    encoder_hidden_states := none, encoder_attention_mask := none,
    use_cache := false, alibi := none, output_attentions := false,
    layer_head_mask := none, past_key_value := none }

/-- A batch-1, sequence-length-3 fp32 input (a prompt). -/
def tPrompt : Tensor := { dtype := DType.float, shape := [1, 3, 4], data := 7 }

/-- A batch-1, sequence-length-1 fp32 input (one decode step). -/
def tDecode : Tensor := { dtype := DType.float, shape := [1, 1, 4], data := 8 }

/-- The layer obtained by the first construction in a fresh process. -/
def layerA : Layer := (construct freshG cfg0).2

/-- The global state after that construction. -/
def gA : GlobalState := (construct freshG cfg0).1

/-- First call: a multi-token prompt, no explicit cache. -/
def step1 : Except PyErr (GlobalState × Layer × Ret × Trace) :=
  forward K0 gA layerA (argsFor (PyInput.tens tPrompt))

/-- Second call: a single decode step on the state `step1` left. -/
def step2 : Except PyErr (GlobalState × Layer × Ret × Trace) :=
  thenForward K0 step1 (argsFor (PyInput.tens tDecode))

/-- The fully evaluated result of a successful `forward` call on a tensor
input whose shape yields `b` at index 0 and `s1` at index 1.  Each `let`
mirrors the corresponding source line; `forward_tens_eq` proves this is
what `forward` computes. -/
def forwardOkResult (k : Kernels) (g : GlobalState) (l : Layer) (a : ForwardArgs)
    (t : Tensor) (b s1 : Nat) : GlobalState × Layer × Ret × Trace :=
  let g1 := if l.config.layer_id = 0
    then { g with allocs := g.allocs ++ [mkAllocCall g l b s1] } else g
  let nalloc : Nat := if l.config.layer_id = 0 then 1 else 0
  let gp := a.get_present || a.get_key_value || a.use_cache
  let im := match a.attention_mask with | none => a.input_mask | some m => some m
  let l1 := if s1 > 1 then { l with layer_past := none } else l
  let lp := match a.layer_past with | some p => some p | none => l1.layer_past
  let hm := match a.layer_head_mask with | some m => some m | none => a.head_mask
  let inp := if (l1.config.fp16 || l1.config.q_int8) && t.dtype == DType.float
    then t.half else t
  let ar := k.attention inp im hm lp gp a.encoder_hidden_states a.encoder_attention_mask
      a.output_attentions l1.norm_w l1.norm_b a.alibi
  let presents := (ar.2.1, ar.2.2.1)
  let l2 := { l1 with layer_past := if lp.isNone then some presents else none }
  let mlpOut := k.mlp ar.1 inp ar.2.2.2.2 l2.attn_ob
  let output := if !l2.config.pre_layer_norm
    then k.layer_norm (lnKind l2.config) mlpOut l2.norm_w l2.norm_b l2.config.epsilon
    else mlpOut
  let outputC := output.to t.dtype
  let ret : Ret :=
    if gp then .withPresents outputC presents
    else if l2.config.return_tuple then .withMask outputC none
    else .bare outputC
  (g1, l2, ret,
    { maskUsed := im, headMaskUsed := hm, cacheUsed := lp, presents := presents,
      inputType := t.dtype, castInput := inp, attnOut := ar.1, inpNorm := ar.2.2.2.2,
      mlpOut := mlpOut, out := outputC, normApplied := !l2.config.pre_layer_norm,
      unpacked := false, allocCount := nalloc })

/-- The layers produced by a sequence of constructions started in global
state `g`, in construction order. -/
def builtLayers (g : GlobalState) : List Config → List Layer
  | [] => []
  | c :: cs => (construct g c).2 :: builtLayers (construct g c).1 cs

/-- The global state after a sequence of constructions. -/
def builtGlobal (g : GlobalState) : List Config → GlobalState
  | [] => g
  | c :: cs => builtGlobal (construct g c).1 cs

def c3args : ForwardArgs :=
  { argsFor (PyInput.tens tPrompt) with past_key_value := some (tDecode, tDecode) }

def cfgRT : Config := { cfg0 with return_tuple := true }

def gRT : GlobalState := (construct freshG cfgRT).1

def layerRT : Layer := (construct freshG cfgRT).2

def cfgPost : Config := { cfg0 with pre_layer_norm := false }

def gPost : GlobalState := (construct freshG cfgPost).1

def layerPost : Layer := (construct freshG cfgPost).2

def cfg5 : Config := { cfg0 with layer_id := 5 }

def tA : Tensor := { dtype := DType.float, shape := [1, 3], data := 21 }

def tB : Tensor := { dtype := DType.float, shape := [1, 3], data := 22 }

def tC : Tensor := { dtype := DType.float, shape := [1, 3], data := 23 }

def tD : Tensor := { dtype := DType.float, shape := [1, 3], data := 24 }

def c9args : ForwardArgs :=
  { argsFor (PyInput.tens tPrompt) with
      attention_mask := some tA
      input_mask := some tB
      layer_head_mask := some tC
      head_mask := some tD
      layer_past := some (tA, tB) }

/-! ### Theorems -/

/-- `Except` bind on a success reduces to the continuation. -/
theorem exceptBind_ok {α β ε : Type} (x : α) (f : α → Except ε β) :
    (Except.ok x : Except ε α) >>= f = f x := rfl

/-- `pure` in the `Except` monad is `Except.ok`. -/
theorem exceptPure {α ε : Type} (x : α) :
    (pure x : Except ε α) = Except.ok x := rfl

/-- Normal form of `forward` on a tensor input with at least two shape
dimensions: the call always succeeds and returns `forwardOkResult`. -/
theorem forward_tens_eq (k : Kernels) (g : GlobalState) (l : Layer) (a : ForwardArgs)
    (t : Tensor) (b s1 : Nat) (ht : a.input = PyInput.tens t)
    (h0 : t.shape[0]? = some b) (h1 : t.shape[1]? = some s1) :
    forward k g l a = Except.ok (forwardOkResult k g l a t b s1) := by
  by_cases hz : l.config.layer_id = 0 <;>
    simp [forward, allocStep, forwardOkResult, ht, hz, PyInput.sizeList,
      PyInput.shapeList, pyIndex, h0, h1, exceptBind_ok, exceptPure]

/-- `Except` bind on an error short-circuits. -/
theorem exceptBind_err {α β ε : Type} (e : ε) (f : α → Except ε β) :
    (Except.error e : Except ε α) >>= f = Except.error e := rfl

/-- A tuple `input` makes `forward` raise `AttributeError`: on layer 0 at
`input.size()` (line 107), on every other layer at `input.shape` (line 120),
in both cases before the tuple-unpacking branch at line 126. -/
theorem forward_tup_err (k : Kernels) (g : GlobalState) (l : Layer) (a : ForwardArgs)
    (t m : Tensor) (ht : a.input = PyInput.tup t m) :
    forward k g l a = Except.error PyErr.attributeError := by
  by_cases hz : l.config.layer_id = 0 <;>
    simp [forward, allocStep, ht, hz, PyInput.sizeList, PyInput.shapeList,
      exceptBind_ok, exceptBind_err]

/-- A tensor input whose shape has no index 1 makes `forward` raise
`IndexError` (at the `input.size()[...]` reads on layer 0, at
`input.shape[1]` otherwise). -/
theorem forward_tens_short (k : Kernels) (g : GlobalState) (l : Layer) (a : ForwardArgs)
    (t : Tensor) (ht : a.input = PyInput.tens t) (h1 : t.shape[1]? = none) :
    forward k g l a = Except.error PyErr.indexError := by
  by_cases hz : l.config.layer_id = 0 <;>
    rcases h0 : t.shape[0]? with _ | b <;>
    simp [forward, allocStep, ht, hz, PyInput.sizeList, PyInput.shapeList,
      pyIndex, h0, h1, exceptBind_ok, exceptBind_err]

/-- A list with an element at index 1 also has one at index 0. -/
theorem getElem1_some_getElem0 (xs : List Nat) (v : Nat) (h : xs[1]? = some v) :
    ∃ b, xs[0]? = some b := by
  match xs with
  | [] => simp at h
  | x :: _ => exact ⟨x, by simp⟩

/-- Allocation accounting of one `forward` call: on success, exactly one
workspace allocation was performed when the layer's `config.layer_id` is
`0`, and none otherwise. -/
theorem forward_allocs (k : Kernels) (g : GlobalState) (l : Layer) (a : ForwardArgs)
    (res : GlobalState × Layer × Ret × Trace)
    (hok : forward k g l a = Except.ok res) :
    res.1.allocs.length = g.allocs.length + (if l.config.layer_id = 0 then 1 else 0) := by
  cases hin : a.input with
  | tens t =>
    cases h1 : t.shape[1]? with
    | none =>
      rw [forward_tens_short k g l a t hin h1] at hok
      exact absurd hok (by simp)
    | some s1 =>
      obtain ⟨b, h0⟩ := getElem1_some_getElem0 t.shape s1 h1
      rw [forward_tens_eq k g l a t b s1 hin h0 h1] at hok
      cases hok
      by_cases hz : l.config.layer_id = 0 <;> simp [forwardOkResult, hz]
  | tup t m =>
    rw [forward_tup_err k g l a t m hin] at hok
    exact absurd hok (by simp)

/-- A run consisting only of constructions always succeeds and appends
`builtLayers`. -/
theorem run_constructs (k : Kernels) (cs : List Config) : ∀ (g : GlobalState) (ls : List Layer),
    run k g ls (cs.map Op.construct) =
      Except.ok (builtGlobal g cs, ls ++ builtLayers g cs) := by
  induction cs with
  | nil => intro g ls; simp [run, builtLayers, builtGlobal]
  | cons c cs ih =>
    intro g ls
    simp [run, runStep, builtLayers, builtGlobal, ih]

/-- A sequence of constructions yields one layer per configuration. -/
theorem builtLayers_length (cs : List Config) : ∀ (g : GlobalState),
    (builtLayers g cs).length = cs.length := by
  induction cs with
  | nil => intro g; rfl
  | cons c cs ih => intro g; simp [builtLayers, ih]

/-- The `j`-th constructed layer is assigned index `g.layer_id + j`. -/
theorem builtLayers_ids (cs : List Config) : ∀ (g : GlobalState) (j : Nat), j < cs.length →
    ((builtLayers g cs).get? j).map (fun l => l.config.layer_id) = some (g.layer_id + j) := by
  induction cs with
  | nil => intro g j h; exact absurd h (by simp)
  | cons c cs ih =>
    intro g j h
    cases j with
    | zero => simp [builtLayers, construct]
    | succ j =>
      have hj : j < cs.length := by simpa using h
      have := ih (construct g c).1 j hj
      simp only [builtLayers, List.get?_cons_succ]
      rw [this]
      simp [construct]
      omega

/-- Claim C10 (confirmed): a tuple-valued `input` makes `forward` fail with
an `AttributeError` before the tuple-unpacking branch (on layer 0 at the
`input.size()` reads for workspace sizing, on other layers at the
`input.shape[1]` cache-reset check), so the unpacking branch is
unreachable without a preceding error: no successful call ever has a
trace with `unpacked = true`. -/
theorem tuple_input_raises :
    (∀ (k : Kernels) (g : GlobalState) (l : Layer) (a : ForwardArgs) (t m : Tensor),
      a.input = PyInput.tup t m → forward k g l a = Except.error PyErr.attributeError)
    ∧ (∀ (k : Kernels) (g : GlobalState) (l : Layer) (a : ForwardArgs) (tr : Trace),
      fwdTrace? (forward k g l a) = some tr → tr.unpacked = false) := by
  constructor
  · exact fun k g l a t m ht => forward_tup_err k g l a t m ht
  · intro k g l a tr htr
    cases hin : a.input with
    | tens t =>
      cases h1 : t.shape[1]? with
      | none =>
        rw [forward_tens_short k g l a t hin h1] at htr
        exact absurd htr (by simp [fwdTrace?])
      | some s1 =>
        obtain ⟨b, h0⟩ := getElem1_some_getElem0 t.shape s1 h1
        rw [forward_tens_eq k g l a t b s1 hin h0 h1] at htr
        simp [fwdTrace?, forwardOkResult] at htr
        rw [← htr]
    | tup t m =>
      rw [forward_tup_err k g l a t m hin] at htr
      exact absurd htr (by simp [fwdTrace?])

/-- Witness for C10 at a concrete tuple input. -/
theorem tuple_input_raises_witness :
    (argsFor (PyInput.tup tPrompt tDecode)).input = PyInput.tup tPrompt tDecode
    ∧ forward K0 gA layerA (argsFor (PyInput.tup tPrompt tDecode)) =
        Except.error PyErr.attributeError :=
  ⟨rfl, tuple_input_raises.1 K0 gA layerA (argsFor (PyInput.tup tPrompt tDecode))
    tPrompt tDecode rfl⟩

/-- Claim C5 (confirmed): for every successful forward call the data type
of the returned output tensor equals the original data type of the input
tensor, regardless of the internal half-precision cast. -/
theorem output_dtype_eq_input_dtype (k : Kernels) (g : GlobalState) (l : Layer)
    (a : ForwardArgs) (t : Tensor) (b s1 : Nat) (ht : a.input = PyInput.tens t)
    (h0 : t.shape[0]? = some b) (h1 : t.shape[1]? = some s1) :
    (fwdRet? (forward k g l a)).map (fun r => r.outTensor.dtype) = some t.dtype := by
  rw [forward_tens_eq k g l a t b s1 ht h0 h1]
  by_cases hgp : (a.get_present || a.get_key_value || a.use_cache) = true <;>
    by_cases hrt : l.config.return_tuple = true <;>
    by_cases hs : s1 > 1 <;>
      simp [fwdRet?, forwardOkResult, Ret.outTensor, Tensor.to, hgp, hrt, hs]

/-- Witness for C5 at a concrete fp32 input. -/
theorem output_dtype_eq_input_dtype_witness :
    (argsFor (PyInput.tens tPrompt)).input = PyInput.tens tPrompt
    ∧ (fwdRet? (forward K0 gA layerA (argsFor (PyInput.tens tPrompt)))).map
        (fun r => r.outTensor.dtype) = some tPrompt.dtype :=
  ⟨rfl, output_dtype_eq_input_dtype K0 gA layerA (argsFor (PyInput.tens tPrompt))
    tPrompt 1 3 rfl rfl rfl⟩

/-- Claim C1 as amended: the workspace-allocation capability is invoked
exactly once by EVERY forward call on the layer whose `config.layer_id`
is `0` (not only its first call), and never by a forward call on any
other layer nor by a layer construction. -/
theorem workspace_alloc_per_forward :
    (∀ (k : Kernels) (g : GlobalState) (l : Layer) (a : ForwardArgs)
        (res : GlobalState × Layer × Ret × Trace), forward k g l a = Except.ok res →
      res.1.allocs.length = g.allocs.length + (if l.config.layer_id = 0 then 1 else 0))
    ∧ (∀ (g : GlobalState) (c : Config), ((construct g c).1).allocs = g.allocs) :=
  ⟨forward_allocs, fun _ _ => rfl⟩

/-- Witness for the amended C1 at a concrete forward call on layer 0. -/
theorem workspace_alloc_per_forward_witness :
    forward K0 gA layerA (argsFor (PyInput.tens tPrompt)) =
      Except.ok (forwardOkResult K0 gA layerA (argsFor (PyInput.tens tPrompt)) tPrompt 1 3)
    ∧ (forwardOkResult K0 gA layerA (argsFor (PyInput.tens tPrompt)) tPrompt 1 3).1.allocs.length
      = gA.allocs.length + (if layerA.config.layer_id = 0 then 1 else 0) :=
  ⟨rfl, workspace_alloc_per_forward.1 K0 gA layerA (argsFor (PyInput.tens tPrompt))
    (forwardOkResult K0 gA layerA (argsFor (PyInput.tens tPrompt)) tPrompt 1 3) rfl⟩

/-- Counterexample to C1 as stated: one layer construction followed by two
forward calls on that layer (the layer with index 0) performs two
workspace allocations, not exactly one. -/
theorem workspace_alloc_not_once :
    (runGlobal? (run K0 freshG [] [Op.construct cfg0,
        Op.fwd 0 (argsFor (PyInput.tens tPrompt)),
        Op.fwd 0 (argsFor (PyInput.tens tDecode))])).map (fun g => g.allocs.length) = some 2
    ∧ ¬ ((runGlobal? (run K0 freshG [] [Op.construct cfg0,
        Op.fwd 0 (argsFor (PyInput.tens tPrompt)),
        Op.fwd 0 (argsFor (PyInput.tens tDecode))])).map (fun g => g.allocs.length) = some 1) := by
  decide

/-- Claim C2 as amended: the reset-to-empty happens in the sequence-length
`> 1` call itself — that call's attention sees an empty cache and its
`(key, value)` pair is stored; the following sequence-length-1 call then
uses exactly that stored, non-empty cache (not an empty one). -/
theorem cache_reset_and_carryover (k : Kernels) (g : GlobalState) (l : Layer)
    (a1 a2 : ForwardArgs) (t1 t2 : Tensor) (b1 b2 s1 : Nat)
    (ht1 : a1.input = PyInput.tens t1) (h01 : t1.shape[0]? = some b1)
    (h11 : t1.shape[1]? = some s1) (hs1 : 1 < s1) (hp1 : a1.layer_past = none)
    (ht2 : a2.input = PyInput.tens t2) (h02 : t2.shape[0]? = some b2)
    (h12 : t2.shape[1]? = some 1) (hp2 : a2.layer_past = none) :
    (fwdTrace? (forward k g l a1)).map (fun tr => tr.cacheUsed) = some none
    ∧ (fwdLayer? (forward k g l a1)).map (fun l1 => l1.layer_past)
        = (fwdTrace? (forward k g l a1)).map (fun tr => some tr.presents)
    ∧ (fwdTrace? (thenForward k (forward k g l a1) a2)).map (fun tr => tr.cacheUsed)
        = (fwdLayer? (forward k g l a1)).map (fun l1 => l1.layer_past)
    ∧ (fwdTrace? (thenForward k (forward k g l a1) a2)).map (fun tr => tr.cacheUsed.isSome)
        = some true := by
  rw [forward_tens_eq k g l a1 t1 b1 s1 ht1 h01 h11]
  simp only [thenForward]
  rw [forward_tens_eq k _ _ a2 t2 b2 1 ht2 h02 h12]
  simp [fwdTrace?, fwdLayer?, forwardOkResult, hp1, hp2, hs1]

/-- Witness for the amended C2 on a concrete prompt-then-decode pair. -/
theorem cache_reset_and_carryover_witness :
    (fwdTrace? (forward K0 gA layerA (argsFor (PyInput.tens tPrompt)))).map
        (fun tr => tr.cacheUsed) = some none
    ∧ (fwdLayer? (forward K0 gA layerA (argsFor (PyInput.tens tPrompt)))).map
        (fun l1 => l1.layer_past)
      = (fwdTrace? (forward K0 gA layerA (argsFor (PyInput.tens tPrompt)))).map
        (fun tr => some tr.presents)
    ∧ (fwdTrace? (thenForward K0 (forward K0 gA layerA (argsFor (PyInput.tens tPrompt)))
        (argsFor (PyInput.tens tDecode)))).map (fun tr => tr.cacheUsed)
      = (fwdLayer? (forward K0 gA layerA (argsFor (PyInput.tens tPrompt)))).map
        (fun l1 => l1.layer_past)
    ∧ (fwdTrace? (thenForward K0 (forward K0 gA layerA (argsFor (PyInput.tens tPrompt)))
        (argsFor (PyInput.tens tDecode)))).map (fun tr => tr.cacheUsed.isSome) = some true :=
  cache_reset_and_carryover K0 gA layerA (argsFor (PyInput.tens tPrompt))
    (argsFor (PyInput.tens tDecode)) tPrompt tDecode 1 1 3
    rfl rfl rfl (by decide) rfl rfl rfl rfl rfl

/-- Counterexample to C2 as stated: after a prompt call of sequence
length 3, the sequence-length-1 call uses the cache stored by the prompt
call — the `(key, value)` pair, not an empty (`None`) cache. -/
theorem decode_cache_not_reset :
    (fwdTrace? step2).map (fun tr => tr.cacheUsed) = some (some (tPrompt, tPrompt))
    ∧ ¬ ((fwdTrace? step2).map (fun tr => tr.cacheUsed) = some none) := by decide

/-- Counterexample to C3 as stated: supplying the `past_key_value` alias
does not stop the layer from retaining state — the alias is ignored and
the new `(key, value)` pair is stored anyway. -/
theorem alias_cache_still_stored :
    (fwdLayer? (forward K0 gA layerA c3args)).map (fun l2 => l2.layer_past)
      = some (some (tPrompt, tPrompt))
    ∧ ¬ ((fwdLayer? (forward K0 gA layerA c3args)).map (fun l2 => l2.layer_past)
      = some none) := by decide

/-- Claim C3 as amended: after a forward call the new `(key, value)` pair
is stored as the layer's cache exactly when the RESOLVED cache (the
explicit `layer_past` argument if non-`None`, else the stored cache after
any prompt reset) was `None`; when the resolved cache was non-`None` the
stored cache is set to `None`.  The `past_key_value` alias is ignored
entirely: it has no effect on the call's result. -/
theorem cache_store_iff_resolved_empty (k : Kernels) (g : GlobalState) (l : Layer)
    (a : ForwardArgs) (t : Tensor) (b s1 : Nat) (ht : a.input = PyInput.tens t)
    (h0 : t.shape[0]? = some b) (h1 : t.shape[1]? = some s1) :
    (fwdLayer? (forward k g l a)).map (fun l2 => l2.layer_past)
      = (fwdTrace? (forward k g l a)).map
          (fun tr => if tr.cacheUsed.isNone then some tr.presents else none)
    ∧ (∀ p, forward k g l { a with past_key_value := p } = forward k g l a) := by
  constructor
  · rw [forward_tens_eq k g l a t b s1 ht h0 h1]
    simp [fwdLayer?, fwdTrace?, forwardOkResult]
  · intro p
    have ht' : ({ a with past_key_value := p } : ForwardArgs).input = PyInput.tens t := ht
    rw [forward_tens_eq k g l _ t b s1 ht' h0 h1,
      forward_tens_eq k g l a t b s1 ht h0 h1]
    simp [forwardOkResult]

/-- Witness for the amended C3 at a concrete call. -/
theorem cache_store_iff_resolved_empty_witness :
    (fwdLayer? (forward K0 gA layerA c3args)).map (fun l2 => l2.layer_past)
      = (fwdTrace? (forward K0 gA layerA c3args)).map
          (fun tr => if tr.cacheUsed.isNone then some tr.presents else none)
    ∧ (∀ p, forward K0 gA layerA { c3args with past_key_value := p }
      = forward K0 gA layerA c3args) :=
  cache_store_iff_resolved_empty K0 gA layerA c3args tPrompt 1 3 rfl rfl rfl

/-- Claim C4 (confirmed): across any sequence of layer constructions in
one process (class counter starting at 0), the `j`-th constructed layer
is assigned layer index exactly `j` — indices start at zero, increase by
one per construction, and are never reused. -/
theorem layer_index_increments (k : Kernels) (g : GlobalState) (cs : List Config)
    (g' : GlobalState) (ls' : List Layer) (j : Nat) (hg : g.layer_id = 0)
    (hrun : run k g [] (cs.map Op.construct) = Except.ok (g', ls')) (hj : j < cs.length) :
    (ls'.get? j).map (fun l => l.config.layer_id) = some j := by
  rw [run_constructs] at hrun
  simp only [List.nil_append, Except.ok.injEq, Prod.mk.injEq] at hrun
  obtain ⟨hg', hls⟩ := hrun
  subst hls
  have hid := builtLayers_ids cs g j hj
  rw [hg] at hid
  simpa using hid

/-- Witness for C4: two constructions from a fresh process, the second
layer has index 1. -/
theorem layer_index_increments_witness :
    freshG.layer_id = 0
    ∧ run K0 freshG [] ([cfg0, cfg0].map Op.construct)
        = Except.ok (builtGlobal freshG [cfg0, cfg0], builtLayers freshG [cfg0, cfg0])
    ∧ ((builtLayers freshG [cfg0, cfg0]).get? 1).map (fun l => l.config.layer_id) = some 1 :=
  ⟨rfl, rfl, layer_index_increments K0 freshG [cfg0, cfg0]
    (builtGlobal freshG [cfg0, cfg0]) (builtLayers freshG [cfg0, cfg0]) 1 rfl rfl (by decide)⟩

/-- Counterexample to C6 as stated: with `return_tuple` configured and no
cache-retrieval flag, the return value is a TWO-element tuple
`(output, attn_mask)`, not a single-element wrapped tuple. -/
theorem wrapped_return_not_single :
    (fwdRet? (forward K0 gRT layerRT (argsFor (PyInput.tens tPrompt)))).map Ret.tupleLen
      = some (some 2)
    ∧ ¬ ((fwdRet? (forward K0 gRT layerRT (argsFor (PyInput.tens tPrompt)))).map Ret.tupleLen
      = some (some 1)) := by decide

/-- Claim C6 as amended: if `get_present` or either alias
(`get_key_value`/`use_cache`) is true the return value is the pair
`(output, presents)`; otherwise it is the two-element tuple
`(output, attn_mask)` (with mask `None` for tensor inputs) when the
configuration's `return_tuple` flag is set, and the bare output tensor
when it is not. -/
theorem return_packaging (k : Kernels) (g : GlobalState) (l : Layer)
    (a : ForwardArgs) (t : Tensor) (b s1 : Nat) (ht : a.input = PyInput.tens t)
    (h0 : t.shape[0]? = some b) (h1 : t.shape[1]? = some s1) :
    ((a.get_present || a.get_key_value || a.use_cache) = true →
      fwdRet? (forward k g l a)
        = (fwdTrace? (forward k g l a)).map (fun tr => Ret.withPresents tr.out tr.presents))
    ∧ ((a.get_present || a.get_key_value || a.use_cache) = false →
        l.config.return_tuple = true →
      fwdRet? (forward k g l a)
        = (fwdTrace? (forward k g l a)).map (fun tr => Ret.withMask tr.out none))
    ∧ ((a.get_present || a.get_key_value || a.use_cache) = false →
        l.config.return_tuple = false →
      fwdRet? (forward k g l a)
        = (fwdTrace? (forward k g l a)).map (fun tr => Ret.bare tr.out)) := by
  rw [forward_tens_eq k g l a t b s1 ht h0 h1]
  refine ⟨fun hgp => ?_, fun hgp hrt => ?_, fun hgp hrt => ?_⟩
  · by_cases hs : s1 > 1 <;> simp [fwdRet?, fwdTrace?, forwardOkResult, hgp, hs]
  · by_cases hs : s1 > 1 <;> simp [fwdRet?, fwdTrace?, forwardOkResult, hgp, hrt, hs]
  · by_cases hs : s1 > 1 <;> simp [fwdRet?, fwdTrace?, forwardOkResult, hgp, hrt, hs]

/-- Witness for the amended C6 on a `return_tuple` configuration. -/
theorem return_packaging_witness :
    (((argsFor (PyInput.tens tPrompt)).get_present
        || (argsFor (PyInput.tens tPrompt)).get_key_value
        || (argsFor (PyInput.tens tPrompt)).use_cache) = true →
      fwdRet? (forward K0 gRT layerRT (argsFor (PyInput.tens tPrompt)))
        = (fwdTrace? (forward K0 gRT layerRT (argsFor (PyInput.tens tPrompt)))).map
            (fun tr => Ret.withPresents tr.out tr.presents))
    ∧ (((argsFor (PyInput.tens tPrompt)).get_present
        || (argsFor (PyInput.tens tPrompt)).get_key_value
        || (argsFor (PyInput.tens tPrompt)).use_cache) = false →
        layerRT.config.return_tuple = true →
      fwdRet? (forward K0 gRT layerRT (argsFor (PyInput.tens tPrompt)))
        = (fwdTrace? (forward K0 gRT layerRT (argsFor (PyInput.tens tPrompt)))).map
            (fun tr => Ret.withMask tr.out none))
    ∧ (((argsFor (PyInput.tens tPrompt)).get_present
        || (argsFor (PyInput.tens tPrompt)).get_key_value
        || (argsFor (PyInput.tens tPrompt)).use_cache) = false →
        layerRT.config.return_tuple = false →
      fwdRet? (forward K0 gRT layerRT (argsFor (PyInput.tens tPrompt)))
        = (fwdTrace? (forward K0 gRT layerRT (argsFor (PyInput.tens tPrompt)))).map
            (fun tr => Ret.bare tr.out)) :=
  return_packaging K0 gRT layerRT (argsFor (PyInput.tens tPrompt)) tPrompt 1 3 rfl rfl rfl

/-- Claim C7 (confirmed): with post-block normalization configured
(`pre_layer_norm` false) the final output equals the layer-normalization
capability applied to the MLP output with the stored `norm_w`/`norm_b`
and the configured epsilon, cast to the input's original dtype; with
pre-block normalization configured no layer normalization is applied
after the MLP call — the final output is the MLP output cast back. -/
theorem post_norm_output (k : Kernels) (g : GlobalState) (l : Layer)
    (a : ForwardArgs) (t : Tensor) (b s1 : Nat) (ht : a.input = PyInput.tens t)
    (h0 : t.shape[0]? = some b) (h1 : t.shape[1]? = some s1) :
    (l.config.pre_layer_norm = false →
      (fwdRet? (forward k g l a)).map Ret.outTensor
        = (fwdTrace? (forward k g l a)).map (fun tr =>
            (k.layer_norm (lnKind l.config) tr.mlpOut l.norm_w l.norm_b
              l.config.epsilon).to t.dtype)
      ∧ (fwdTrace? (forward k g l a)).map (fun tr => tr.normApplied) = some true)
    ∧ (l.config.pre_layer_norm = true →
      (fwdRet? (forward k g l a)).map Ret.outTensor
        = (fwdTrace? (forward k g l a)).map (fun tr => tr.mlpOut.to t.dtype)
      ∧ (fwdTrace? (forward k g l a)).map (fun tr => tr.normApplied) = some false) := by
  rw [forward_tens_eq k g l a t b s1 ht h0 h1]
  constructor <;> intro hpre <;>
    by_cases hs : s1 > 1 <;>
    by_cases hgp : (a.get_present || a.get_key_value || a.use_cache) = true <;>
    by_cases hrt : l.config.return_tuple = true <;>
      simp [fwdRet?, fwdTrace?, forwardOkResult, Ret.outTensor, hpre, hs, hgp, hrt]

/-- Witness for C7 on a post-layer-norm configuration. -/
theorem post_norm_output_witness :
    (layerPost.config.pre_layer_norm = false →
      (fwdRet? (forward K0 gPost layerPost (argsFor (PyInput.tens tPrompt)))).map Ret.outTensor
        = (fwdTrace? (forward K0 gPost layerPost (argsFor (PyInput.tens tPrompt)))).map
            (fun tr => (K0.layer_norm (lnKind layerPost.config) tr.mlpOut layerPost.norm_w
              layerPost.norm_b layerPost.config.epsilon).to tPrompt.dtype)
      ∧ (fwdTrace? (forward K0 gPost layerPost (argsFor (PyInput.tens tPrompt)))).map
          (fun tr => tr.normApplied) = some true)
    ∧ (layerPost.config.pre_layer_norm = true →
      (fwdRet? (forward K0 gPost layerPost (argsFor (PyInput.tens tPrompt)))).map Ret.outTensor
        = (fwdTrace? (forward K0 gPost layerPost (argsFor (PyInput.tens tPrompt)))).map
            (fun tr => tr.mlpOut.to tPrompt.dtype)
      ∧ (fwdTrace? (forward K0 gPost layerPost (argsFor (PyInput.tens tPrompt)))).map
          (fun tr => tr.normApplied) = some false) :=
  post_norm_output K0 gPost layerPost (argsFor (PyInput.tens tPrompt)) tPrompt 1 3 rfl rfl rfl

/-- Counterexample to C8 as stated: constructing a layer from a config
whose `layer_id` field is 5 overwrites that field with the class counter
(0), so construction DOES modify a field of the configuration record. -/
theorem construct_overwrites_config_layer_id :
    ¬ ((construct freshG cfg5).2.config.layer_id = cfg5.layer_id)
    ∧ (construct freshG cfg5).2.config = { cfg5 with layer_id := 0 } :=
  ⟨by decide, rfl⟩

/-- Claim C8 as amended: construction modifies exactly the `layer_id`
field of the configuration record (setting it to the class counter) and
no other field; forward calls modify no configuration field at all. -/
theorem config_mutation_only_layer_id :
    (∀ (g : GlobalState) (c : Config),
      (construct g c).2.config = { c with layer_id := g.layer_id })
    ∧ (∀ (k : Kernels) (g : GlobalState) (l : Layer) (a : ForwardArgs) (l' : Layer),
      fwdLayer? (forward k g l a) = some l' → l'.config = l.config) := by
  constructor
  · intro g c; rfl
  · intro k g l a l' hl
    cases hin : a.input with
    | tens t =>
      cases h1 : t.shape[1]? with
      | none =>
        rw [forward_tens_short k g l a t hin h1] at hl
        exact absurd hl (by simp [fwdLayer?])
      | some s1 =>
        obtain ⟨b, h0⟩ := getElem1_some_getElem0 t.shape s1 h1
        rw [forward_tens_eq k g l a t b s1 hin h0 h1] at hl
        simp only [fwdLayer?, Option.some.injEq] at hl
        rw [← hl]
        by_cases hs : s1 > 1 <;> simp [forwardOkResult, hs]
    | tup t m =>
      rw [forward_tup_err k g l a t m hin] at hl
      exact absurd hl (by simp [fwdLayer?])

/-- Witness for the amended C8 at a concrete construction and call. -/
theorem config_mutation_only_layer_id_witness :
    (construct freshG cfg0).2.config = { cfg0 with layer_id := freshG.layer_id }
    ∧ (forwardOkResult K0 gA layerA (argsFor (PyInput.tens tPrompt)) tPrompt 1 3).2.1.config
      = layerA.config :=
  ⟨config_mutation_only_layer_id.1 freshG cfg0,
   config_mutation_only_layer_id.2 K0 gA layerA (argsFor (PyInput.tens tPrompt))
     (forwardOkResult K0 gA layerA (argsFor (PyInput.tens tPrompt)) tPrompt 1 3).2.1 rfl⟩

/-- Claim C9 (confirmed): when both a mask/cache argument and its legacy
alias are supplied, no error is raised and the fixed precedence applies:
`attention_mask` wins over `input_mask`, `layer_head_mask` wins over
`head_mask`, and an explicit `layer_past` argument wins over the layer's
stored cache. -/
theorem alias_precedence (k : Kernels) (g : GlobalState) (l : Layer)
    (a : ForwardArgs) (t : Tensor) (b s1 : Nat) (am im lh hm2 : Tensor)
    (lp : Tensor × Tensor) (ht : a.input = PyInput.tens t)
    (h0 : t.shape[0]? = some b) (h1 : t.shape[1]? = some s1)
    (ham : a.attention_mask = some am) (him : a.input_mask = some im)
    (hlh : a.layer_head_mask = some lh) (hhm : a.head_mask = some hm2)
    (hlp : a.layer_past = some lp) :
    fwdOk (forward k g l a) = true
    ∧ (fwdTrace? (forward k g l a)).map (fun tr => tr.maskUsed) = some (some am)
    ∧ (fwdTrace? (forward k g l a)).map (fun tr => tr.headMaskUsed) = some (some lh)
    ∧ (fwdTrace? (forward k g l a)).map (fun tr => tr.cacheUsed) = some (some lp) := by
  rw [forward_tens_eq k g l a t b s1 ht h0 h1]
  simp [fwdOk, fwdTrace?, forwardOkResult, ham, hlh, hlp]

/-- Witness for C9 with all mask/cache arguments and aliases supplied. -/
theorem alias_precedence_witness :
    fwdOk (forward K0 gA layerA c9args) = true
    ∧ (fwdTrace? (forward K0 gA layerA c9args)).map (fun tr => tr.maskUsed) = some (some tA)
    ∧ (fwdTrace? (forward K0 gA layerA c9args)).map (fun tr => tr.headMaskUsed)
      = some (some tC)
    ∧ (fwdTrace? (forward K0 gA layerA c9args)).map (fun tr => tr.cacheUsed)
      = some (some (tA, tB)) :=
  alias_precedence K0 gA layerA c9args tPrompt 1 3 tA tB tC tD (tA, tB)
    rfl rfl rfl rfl rfl rfl rfl rfl
